import Mathlib

/-
Verification development for the Atrius-Maps Next.js backend.

The repository is a thin proxy: five GET route handlers
(src/app/api/pois/route.js, src/app/api/search/route.js,
src/app/api/structures/route.js, the dynamic POI-detail route, and the
venue route), each of which obtains a memoized SDK handle from
src/lib/mapService.js (getMapInstance), invokes one SDK method, normalizes
the result shape, and returns a JSON envelope.

The embedding below models JavaScript values as an inductive type,
transcribes each handler body and the handle cache from the source, and
treats the external SDK calls as parameters (an `Except` outcome, or a
function producing one, so that the argument passed to the SDK is visible).
-/

namespace AtriusNext

/-- JavaScript values as they appear in this program: `null`, `undefined`,
booleans, numbers (modelled as integers; the program never manipulates
fractional values), strings, arrays, and plain objects.  An object is its
ordered list of own enumerable string-keyed properties, in property
creation (insertion) order; keys are assumed distinct, as for any object
obtained from JSON. -/
inductive JValue : Type where
  | null : JValue
  | undefined : JValue
  | bool : Bool → JValue
  | num : Int → JValue
  | str : String → JValue
  | arr : List JValue → JValue
  | obj : List (String × JValue) → JValue

/-- JavaScript truthiness: `null`, `undefined`, `false`, `0` and `""` are
falsy; every object and array is truthy. -/
def truthy : JValue → Bool
  | .null => false
  | .undefined => false
  | .bool b => b
  | .num n => n != 0
  | .str s => s != ""
  | .arr _ => true
  | .obj _ => true

/-- JavaScript `typeof`.  Note `typeof null` is `"object"`, and arrays are
also `"object"`. -/
def typeOf : JValue → String
  | .null => "object"
  | .undefined => "undefined"
  | .bool _ => "boolean"
  | .num _ => "number"
  | .str _ => "string"
  | .arr _ => "object"
  | .obj _ => "object"

/-- JavaScript `Array.isArray`. -/
def isArray : JValue → Bool
  | .arr _ => true
  | _ => false

/-- The element list of an array value (used where the source keeps an
array unchanged). -/
def arrayElems : JValue → List JValue
  | .arr xs => xs
  | _ => []

/-- Decimal value of a list of digit characters, accumulated left to
right (`decValueAux 0 ['4','2'] = 42`). -/
def decValueAux (acc : Nat) : List Char → Nat
  | [] => acc
  | c :: cs => decValueAux (acc * 10 + (c.toNat - 48)) cs

/-- ECMAScript array-index test for a property key: `some n` when the key
is the canonical decimal string of an integer `n < 2^32 - 1` (all digits,
no leading zero except for `"0"` itself), otherwise `none`.  Such keys are
enumerated in ascending numeric order by `Object.values`, ahead of all
other string keys. -/
def canonicalIndex (s : String) : Option Nat :=
  match s.data with
  | [] => none
  | c :: cs =>
    if (c :: cs).all Char.isDigit then
      if c == '0' && !cs.isEmpty then none
      else
        let n := decValueAux 0 (c :: cs)
        if n < 2 ^ 32 - 1 then some n else none
    else none

/-- Inserts a key-indexed entry into a list sorted by ascending numeric
key, keeping the insertion stable. -/
def insertSorted (p : Nat × JValue) : List (Nat × JValue) → List (Nat × JValue)
  | [] => [p]
  | q :: qs => if p.1 < q.1 then p :: q :: qs else q :: insertSorted p qs

/-- Insertion sort of index-keyed entries by ascending numeric key. -/
def sortByIndex : List (Nat × JValue) → List (Nat × JValue)
  | [] => []
  | p :: ps => insertSorted p (sortByIndex ps)

/-- JavaScript `Object.values` on a plain object's property list: values of
array-index keys in ascending numeric order first, then values of the
remaining keys in property creation order (ECMAScript ordinary
own-property key order). -/
def objectValues (fields : List (String × JValue)) : List JValue :=
  let indexed := fields.filterMap fun kv => (canonicalIndex kv.1).map fun n => (n, kv.2)
  let rest := fields.filter fun kv => (canonicalIndex kv.1).isNone
  (sortByIndex indexed).map Prod.snd ++ rest.map Prod.snd

/-- JavaScript `Object.values` on any value the routes can reach it with:
for an array it returns the elements, for an object its property values in
own-property key order. -/
def jsObjectValues : JValue → List JValue
  | .obj fields => objectValues fields
  | .arr xs => xs
  | _ => []

/-- Normalization block of src/app/api/pois/route.js (lines 16 to 26): the
raw `getAllPOIs` result is kept if it is an array, converted with
`Object.values` if it is a truthy value of `typeof` `"object"`, and
replaced by `[]` otherwise. -/
def poisToArray (pois : JValue) : List JValue :=
  if isArray pois then arrayElems pois
  else if truthy pois && (typeOf pois == "object") then jsObjectValues pois
  else []

/-- Normalization block of src/app/api/search/route.js (lines 19 to 27),
applied to the raw `map.search(query)` result. -/
def searchResultsToArray (results : JValue) : List JValue :=
  if isArray results then arrayElems results
  else if truthy results && (typeOf results == "object") then jsObjectValues results
  else []

/-- Normalization block of src/app/api/structures/route.js (lines 9 to
17), applied to the raw `map.getStructures()` result. -/
def structuresToArray (structures : JValue) : List JValue :=
  if isArray structures then arrayElems structures
  else if truthy structures && (typeOf structures == "object") then jsObjectValues structures
  else []

/-- An error value as the routes consume it: JavaScript errors reach the
handlers only through their `message` string. -/
structure JsError : Type where
  message : String

/-- One call to `getMapInstance` of src/lib/mapService.js, as a transition
on the module-level variable `mapInstance` (initially `JValue.null`).  The
outcome `sdk` of `Init.newMap(config)` is a parameter, consumed only if
the constructor is actually invoked.  The function returns the value
returned (or error thrown) to the caller, the new content of
`mapInstance`, and whether `Init.newMap` was invoked on this call.  The
source guards the cache with JavaScript truthiness (`if (mapInstance)`),
assigns `mapInstance = await Init.newMap(config)` on the miss path, and
rethrows a rejection, which leaves `mapInstance` unassigned. -/
def getMapInstanceStep (st : JValue) (sdk : Except JsError JValue) :
    Except JsError JValue × JValue × Bool :=
  if truthy st then (.ok st, st, false)
  else
    match sdk with
    | .ok h => (.ok h, h, true)
    | .error e => (.error e, st, true)

/-- A sequence of calls to `getMapInstance`, threading the cache state.
The k-th list entry is the outcome `Init.newMap` would produce if invoked
on the k-th call (ignored on cache hits).  Returns the per-call pairs
(value returned to the caller, whether the constructor was invoked) and
the final cache state. -/
def runCalls : JValue → List (Except JsError JValue) →
    List (Except JsError JValue × Bool) × JValue
  | st, [] => ([], st)
  | st, sdk :: rest =>
    let r := getMapInstanceStep st sdk
    let tail := runCalls r.2.1 rest
    ((r.1, r.2.2) :: tail.1, tail.2)

/-- JavaScript `parseInt(s, 10)`: skip leading whitespace, read an
optional sign, then the longest prefix of decimal digits; the result is
`none` (NaN) exactly when no digit is read. -/
def parseIntBase10 (s : String) : Option Int :=
  let t := s.data.dropWhile Char.isWhitespace
  match t with
  | '+' :: rest =>
    match rest.takeWhile Char.isDigit with
    | [] => none
    | ds => some (decValueAux 0 ds : Nat)
  | '-' :: rest =>
    match rest.takeWhile Char.isDigit with
    | [] => none
    | ds => some (-(decValueAux 0 ds : Nat) : Int)
  | rest =>
    match rest.takeWhile Char.isDigit with
    | [] => none
    | ds => some (decValueAux 0 ds : Nat)

/-- The JSON response envelope shared by all five routes.  An absent field
is `none`; `NextResponse.json` serializes exactly the fields present. -/
structure Envelope : Type where
  success : Bool
  data : Option JValue := none
  error : Option String := none
  message : Option String := none
  count : Option Nat := none
  query : Option String := none

/-- Boolean form of the envelope invariant stated by the spec: `success =
true` implies the `error` field is absent, and `success = false` implies
the `data` field is absent. -/
def envInvariantOk (e : Envelope) : Bool :=
  (!e.success || e.error.isNone) && (e.success || e.data.isNone)

/-- Handler of src/app/api/pois/route.js.  `getMap` is the outcome of
`getMapInstance()`, `getAllPOIs` the outcome of `map.getAllPOIs()`; the
result is the HTTP status together with the JSON envelope.  On any caught
error the route answers 500 with a fixed `error` string and the thrown
error's message in `message`. -/
def poisRoute (getMap : Except JsError JValue)
    (getAllPOIs : Except JsError JValue) : Nat × Envelope :=
  match getMap with
  | .error e =>
    (500, { success := false, error := some "Failed to fetch POIs",
            message := some e.message })
  | .ok _ =>
    match getAllPOIs with
    | .error e =>
      (500, { success := false, error := some "Failed to fetch POIs",
              message := some e.message })
    | .ok pois =>
      let poisArray := poisToArray pois
      (200, { success := true, data := some (.arr poisArray),
              count := some poisArray.length })

/-- JavaScript falsiness of `searchParams.get('q')`, which yields `null`
when the parameter is absent: `!query` holds for `null` and for `""`. -/
def optStrFalsy : Option String → Bool
  | none => true
  | some s => s == ""

/-- Handler of src/app/api/search/route.js.  `q` is the raw query
parameter (`none` when absent), `getMap` the outcome of
`getMapInstance()`, `search` the outcome `map.search(query)` would
produce.  The third component records whether the handler went past the
validation guard to the SDK (the guard returns 400 before `getMapInstance`
is reached). -/
def searchRoute (q : Option String) (getMap : Except JsError JValue)
    (search : Except JsError JValue) : Nat × Envelope × Bool :=
  if optStrFalsy q then
    (400, { success := false,
            error := some "Query parameter \"q\" is required" }, false)
  else
    match getMap with
    | .error e => (500, { success := false, error := some e.message }, true)
    | .ok _ =>
      match search with
      | .error e => (500, { success := false, error := some e.message }, true)
      | .ok results =>
        let resultsArray := searchResultsToArray results
        (200, { success := true, data := some (.arr resultsArray),
                count := some resultsArray.length, query := q }, true)

/-- Handler of src/app/api/structures/route.js. -/
def structuresRoute (getMap : Except JsError JValue)
    (getStructures : Except JsError JValue) : Nat × Envelope :=
  match getMap with
  | .error e => (500, { success := false, error := some e.message })
  | .ok _ =>
    match getStructures with
    | .error e => (500, { success := false, error := some e.message })
    | .ok structures =>
      let structuresArray := structuresToArray structures
      (200, { success := true, data := some (.arr structuresArray),
              count := some structuresArray.length })

/-- Handler of the dynamic POI-detail route (src/unnamed/part_000).  `id`
is the raw path parameter; `getPOIDetails` maps the integer argument the
handler would pass to `map.getPOIDetails` to that call's outcome.  The
last two components record whether `getMapInstance` was reached and the
argument passed to `getPOIDetails` (`none` when it was never called). -/
def poiDetailRoute (id : String) (getMap : Except JsError JValue)
    (getPOIDetails : Int → Except JsError JValue) :
    Nat × Envelope × Bool × Option Int :=
  match parseIntBase10 id with
  | none =>
    (400, { success := false,
            error := some "Invalid POI ID - must be a number" }, false, none)
  | some poiId =>
    match getMap with
    | .error e =>
      (500, { success := false, error := some e.message }, true, none)
    | .ok _ =>
      match getPOIDetails poiId with
      | .error e =>
        (500, { success := false, error := some e.message }, true, some poiId)
      | .ok poi =>
        (200, { success := true, data := some poi }, true, some poiId)

/-- Handler of the venue route (app/api/venue/route.js, reproduced
verbatim in the repository's setup guide): the raw `map.getVenueData()`
result is returned unnormalized. -/
def venueRoute (getMap : Except JsError JValue)
    (getVenueData : Except JsError JValue) : Nat × Envelope :=
  match getMap with
  | .error e => (500, { success := false, error := some e.message })
  | .ok _ =>
    match getVenueData with
    | .error e => (500, { success := false, error := some e.message })
    | .ok venueData => (200, { success := true, data := some venueData })

section CacheLemmas

/-- A call that finds a truthy cached handle returns it unchanged and does
not invoke the constructor. -/
theorem getMapInstanceStep_of_truthy (st : JValue) (sdk : Except JsError JValue)
    (h : truthy st = true) : getMapInstanceStep st sdk = (.ok st, st, false) := by
  simp [getMapInstanceStep, h]

/-- Whenever a call returns a handle successfully, the cache afterwards
holds exactly that handle. -/
theorem getMapInstanceStep_state_eq (st : JValue) (sdk : Except JsError JValue)
    (h : JValue) (hres : (getMapInstanceStep st sdk).1 = .ok h) :
    (getMapInstanceStep st sdk).2.1 = h := by
  unfold getMapInstanceStep at hres ⊢
  by_cases hc : truthy st = true
  · simp [hc] at hres ⊢
    exact hres
  · simp [hc] at hres ⊢
    cases sdk with
    | ok h2 => simpa using hres
    | error e => simp at hres

/-- From a truthy cache state, every further call returns the cached
handle, never invokes the constructor, and leaves the state unchanged. -/
theorem runCalls_of_truthy (st : JValue) (h : truthy st = true)
    (sdks : List (Except JsError JValue)) :
    runCalls st sdks = (sdks.map fun _ => (Except.ok st, false), st) := by
  induction sdks with
  | nil => rfl
  | cons sdk rest ih =>
    simp [runCalls, getMapInstanceStep_of_truthy st sdk h, ih]

end CacheLemmas

/-- C2 counterexample: a successful `getMapInstance` call whose handle is
`null` (the SDK constructor resolved with a falsy value) does not stop
later calls from invoking the constructor again: starting from the empty
cache, a first call with constructor outcome `null` completes successfully
returning `null`, yet the second call invokes the constructor again
(`true` flags) and returns a different handle. -/
theorem C2_counterexample :
    (getMapInstanceStep .null (.ok .null)).1 = .ok .null ∧
    runCalls .null [.ok .null, .ok (.obj [])] =
      ([(.ok .null, true), (.ok (.obj []), true)], .obj []) ∧
    JValue.obj [] ≠ JValue.null := by
  refine ⟨rfl, rfl, ?_⟩
  intro h
  cases h

/-- C2 (amended): once `getMapInstance` has completed successfully with a
truthy handle, every subsequent call returns that very handle and never
invokes `Init.newMap` again. -/
theorem C2_truthy_handle_memoized (st : JValue) (sdk : Except JsError JValue)
    (h : JValue) (hres : (getMapInstanceStep st sdk).1 = .ok h)
    (htr : truthy h = true) (sdks : List (Except JsError JValue)) :
    runCalls (getMapInstanceStep st sdk).2.1 sdks =
      (sdks.map fun _ => (Except.ok h, false), h) := by
  rw [getMapInstanceStep_state_eq st sdk h hres]
  exact runCalls_of_truthy h htr sdks

/-- Witness for C2 (amended) at a concrete truthy handle: after a first
call constructs `obj [("k", num 1)]`, two further calls (one of which
would fail if the constructor ran) both return the cached handle without
construction. -/
theorem C2_truthy_handle_memoized_witness :
    runCalls (getMapInstanceStep .null (.ok (.obj [("k", .num 1)]))).2.1
        [.error ⟨"boom"⟩, .ok .null] =
      ([(.ok (.obj [("k", .num 1)]), false), (.ok (.obj [("k", .num 1)]), false)],
        .obj [("k", .num 1)]) :=
  C2_truthy_handle_memoized .null (.ok (.obj [("k", .num 1)]))
    (.obj [("k", .num 1)]) rfl rfl [.error ⟨"boom"⟩, .ok .null]

/-- C3: when the constructor rejects on a call that finds the cache empty
(`mapInstance` at its initial `null`), the error is propagated unchanged,
the cache still holds `null`, and any subsequent call invokes the
constructor again — in particular a subsequent call whose construction
succeeds returns the new handle, so failure is never memoized. -/
theorem C3_construction_failure_not_memoized (e : JsError) :
    getMapInstanceStep .null (.error e) = (.error e, .null, true) ∧
    (∀ sdk2, (getMapInstanceStep .null sdk2).2.2 = true) ∧
    (∀ h, (getMapInstanceStep .null (.ok h)).1 = .ok h) := by
  refine ⟨rfl, ?_, fun h => rfl⟩
  intro sdk2
  cases sdk2 <;> rfl

/-- C10: if the constructor resolves with a falsy handle, the call returns
that falsy value and stores it, but the truthiness guard treats the cache
as empty, so every subsequent call invokes the constructor again; the
no-reconstruction guarantee holds exactly for truthy handles. -/
theorem C10_falsy_handle_never_cached (h : JValue) (hf : truthy h = false) :
    getMapInstanceStep .null (.ok h) = (.ok h, h, true) ∧
    (∀ sdk2, (getMapInstanceStep h sdk2).2.2 = true) ∧
    (∀ h2, truthy h2 = true →
      ∀ sdk2, (getMapInstanceStep h2 sdk2).2.2 = false) := by
  refine ⟨rfl, ?_, ?_⟩
  · intro sdk2
    unfold getMapInstanceStep
    simp [hf]
    cases sdk2 <;> rfl
  · intro h2 ht2 sdk2
    rw [getMapInstanceStep_of_truthy h2 sdk2 ht2]

/-- Witness for C10 at the falsy handle `null`: the call returns `null`,
and a retry (here a failing one) still invokes the constructor. -/
theorem C10_falsy_handle_never_cached_witness :
    truthy JValue.null = false ∧
    getMapInstanceStep .null (.ok .null) = (.ok .null, .null, true) ∧
    (getMapInstanceStep .null (.error ⟨"x"⟩)).2.2 = true :=
  ⟨rfl, (C10_falsy_handle_never_cached .null rfl).1,
    (C10_falsy_handle_never_cached .null rfl).2.1 (.error ⟨"x"⟩)⟩

/-- C1 counterexample: the routes do not return an object's values in
insertion order.  For the object with properties `"1": 2` inserted first
and `"0": 1` second, `Object.values` enumerates the array-index keys in
ascending numeric order, so normalization yields `[1, 2]`, not the
insertion-order sequence `[2, 1]`. -/
theorem C1_insertion_order_counterexample :
    structuresToArray (.obj [("1", .num 2), ("0", .num 1)]) ≠
      ([("1", JValue.num 2), ("0", JValue.num 1)].map Prod.snd) := by
  intro hEq
  have hEq2 : [JValue.num 1, JValue.num 2] = [JValue.num 2, JValue.num 1] := hEq
  have h1 : JValue.num 1 = JValue.num 2 := by injection hEq2
  have h2 : (1 : Int) = 2 := by injection h1
  exact absurd h2 (by decide)

/-- C1 (amended): the three list routes normalize the raw SDK result by
one and the same rule — an array is returned unchanged; a non-null object
is replaced by `Object.values`, i.e. the sequence of its values in
ECMAScript own-property order (array-index keys in ascending numeric
order first, then the remaining keys in insertion order, which is the
insertion order itself whenever the keys are `"0"`, `"1"`, … in sequence);
anything else (null, undefined, scalar) is replaced by the empty sequence.
All the spec's examples hold: `normalize({}) = []`, `normalize(null) =
[]`, `normalize({"0":{"id":1},"1":{"id":2}}) = [{"id":1},{"id":2}]`, and
`normalize([{"id":9}]) = [{"id":9}]`. -/
theorem C1_normalize_rule :
    (∀ r, poisToArray r = searchResultsToArray r ∧
      poisToArray r = structuresToArray r) ∧
    (∀ xs, poisToArray (.arr xs) = xs) ∧
    (∀ fields, poisToArray (.obj fields) = objectValues fields) ∧
    poisToArray .null = [] ∧
    poisToArray .undefined = [] ∧
    (∀ b, poisToArray (.bool b) = []) ∧
    (∀ n, poisToArray (.num n) = []) ∧
    (∀ s, poisToArray (.str s) = []) ∧
    poisToArray (.obj []) = [] ∧
    poisToArray (.obj [("0", .obj [("id", .num 1)]), ("1", .obj [("id", .num 2)])]) =
      [.obj [("id", .num 1)], .obj [("id", .num 2)]] ∧
    poisToArray (.arr [.obj [("id", .num 9)]]) = [.obj [("id", .num 9)]] := by
  refine ⟨fun r => ⟨rfl, rfl⟩, fun xs => rfl, fun fields => rfl, rfl, rfl,
    fun b => ?_, fun n => ?_, fun s => ?_, rfl, rfl, rfl⟩
  · cases b <;> rfl
  · simp [poisToArray, isArray, truthy, typeOf]
  · simp [poisToArray, isArray, truthy, typeOf]

/-- C4: every envelope any of the five route handlers can emit satisfies
the spec invariant — a `success:true` envelope has no `error` field and a
`success:false` envelope has no `data` field. -/
theorem C4_envelope_invariant :
    (∀ gm p, envInvariantOk (poisRoute gm p).2 = true) ∧
    (∀ q gm s, envInvariantOk (searchRoute q gm s).2.1 = true) ∧
    (∀ gm st, envInvariantOk (structuresRoute gm st).2 = true) ∧
    (∀ id gm f, envInvariantOk (poiDetailRoute id gm f).2.1 = true) ∧
    (∀ gm v, envInvariantOk (venueRoute gm v).2 = true) := by
  refine ⟨?_, ?_, ?_, ?_, ?_⟩
  · intro gm p
    cases gm with
    | error e => rfl
    | ok m => cases p <;> rfl
  · intro q gm s
    unfold searchRoute
    split
    · rfl
    · cases gm with
      | error e => rfl
      | ok m => cases s <;> rfl
  · intro gm st
    cases gm with
    | error e => rfl
    | ok m => cases st <;> rfl
  · intro id gm f
    unfold poiDetailRoute
    split
    · rfl
    · cases gm with
      | error e => rfl
      | ok m =>
        rename_i poiId _
        cases hf : f poiId <;> simp [hf, envInvariantOk]
  · intro gm v
    cases gm with
    | error e => rfl
    | ok m => cases v <;> rfl

/-- C5: whenever the handle cache or the SDK call throws inside any of the
five handlers, the handler catches it and answers exactly with HTTP 500
and a `success:false` envelope carrying the thrown error's message text
(in the `error` field, or — for the POI-list route, whose `error` field is
the fixed string `Failed to fetch POIs` — in the `message` field); no
error escapes a handler, since every input yields a response. -/
theorem C5_errors_become_500 :
    (∀ e p, poisRoute (.error e) p =
      (500, { success := false, error := some "Failed to fetch POIs",
              message := some e.message })) ∧
    (∀ e m, poisRoute (.ok m) (.error e) =
      (500, { success := false, error := some "Failed to fetch POIs",
              message := some e.message })) ∧
    (∀ e q s, optStrFalsy q = false → searchRoute q (.error e) s =
      (500, { success := false, error := some e.message }, true)) ∧
    (∀ e q m, optStrFalsy q = false → searchRoute q (.ok m) (.error e) =
      (500, { success := false, error := some e.message }, true)) ∧
    (∀ e st, structuresRoute (.error e) st =
      (500, { success := false, error := some e.message })) ∧
    (∀ e m, structuresRoute (.ok m) (.error e) =
      (500, { success := false, error := some e.message })) ∧
    (∀ e id n f, parseIntBase10 id = some n → poiDetailRoute id (.error e) f =
      (500, { success := false, error := some e.message }, true, none)) ∧
    (∀ e id n m, parseIntBase10 id = some n →
      poiDetailRoute id (.ok m) (fun _ => .error e) =
      (500, { success := false, error := some e.message }, true, some n)) ∧
    (∀ e v, venueRoute (.error e) v =
      (500, { success := false, error := some e.message })) ∧
    (∀ e m, venueRoute (.ok m) (.error e) =
      (500, { success := false, error := some e.message })) := by
  refine ⟨fun e p => rfl, fun e m => rfl, ?_, ?_, fun e st => rfl,
    fun e m => rfl, ?_, ?_, fun e v => rfl, fun e m => rfl⟩
  · intro e q s h
    simp [searchRoute, h]
  · intro e q m h
    simp [searchRoute, h]
  · intro e id n f hid
    simp [poiDetailRoute, hid]
  · intro e id n m hid
    simp [poiDetailRoute, hid]

/-- Witness for C5 at concrete errors: the guarded routes surface a thrown
`boom` as a 500 `success:false` envelope with that message. -/
theorem C5_errors_become_500_witness :
    optStrFalsy (some "cafe") = false ∧
    parseIntBase10 "7" = some 7 ∧
    searchRoute (some "cafe") (.error ⟨"boom"⟩) (.ok .null) =
      (500, { success := false, error := some "boom" }, true) ∧
    poiDetailRoute "7" (.ok (.obj [])) (fun _ => .error ⟨"boom"⟩) =
      (500, { success := false, error := some "boom" }, true, some 7) :=
  ⟨rfl, rfl,
    C5_errors_become_500.2.2.1 ⟨"boom"⟩ (some "cafe") (.ok .null) rfl,
    C5_errors_become_500.2.2.2.2.2.2.2.1 ⟨"boom"⟩ "7" 7 (.obj []) rfl⟩

/-- C6: whenever the path id does not parse as a base-10 integer
(`parseInt` yields NaN), the POI-detail route answers 400 with exactly the
envelope `success:false`, `error:"Invalid POI ID - must be a number"`,
without reaching `getMapInstance` or `getPOIDetails`. -/
theorem C6_invalid_id_rejected (id : String) (hid : parseIntBase10 id = none)
    (gm : Except JsError JValue) (f : Int → Except JsError JValue) :
    poiDetailRoute id gm f =
      (400, { success := false,
              error := some "Invalid POI ID - must be a number" }, false, none) := by
  unfold poiDetailRoute
  rw [hid]

/-- Witness for C6 at the unparseable id `"abc"`. -/
theorem C6_invalid_id_rejected_witness :
    poiDetailRoute "abc" (.ok .null) (fun _ => .ok .null) =
      (400, { success := false,
              error := some "Invalid POI ID - must be a number" }, false, none) :=
  C6_invalid_id_rejected "abc" rfl (.ok .null) (fun _ => .ok .null)

/-- C7: when the search parameter `q` is absent or empty the handler
answers 400 with exactly `success:false`,
`error:'Query parameter "q" is required'` and never reaches the SDK; for
every non-falsy `q` it proceeds past the guard to the SDK call. -/
theorem C7_missing_query_rejected :
    (∀ gm s, searchRoute none gm s =
      (400, { success := false,
              error := some "Query parameter \"q\" is required" }, false)) ∧
    (∀ gm s, searchRoute (some "") gm s =
      (400, { success := false,
              error := some "Query parameter \"q\" is required" }, false)) ∧
    (∀ q gm s, optStrFalsy q = false → (searchRoute q gm s).2.2 = true) := by
  refine ⟨fun gm s => rfl, fun gm s => rfl, ?_⟩
  intro q gm s h
  unfold searchRoute
  rw [h]
  cases gm with
  | error e => rfl
  | ok m => cases s <;> rfl

/-- Witness for C7 at the non-empty query `"cafe"`: the handler reaches
the SDK call. -/
theorem C7_missing_query_rejected_witness :
    (searchRoute (some "cafe") (.ok .null) (.ok (.arr []))).2.2 = true :=
  C7_missing_query_rejected.2.2 (some "cafe") (.ok .null) (.ok (.arr [])) rfl

/-- C8: every success envelope of a list route holds in `count` exactly
the length of its `data` array, and the search route's success envelope
echoes the request's `q` in `query`; concretely, a backend result of three
items yields `count 3`, and an empty mapping for query `"cafe"` yields
`data []`, `count 0`, `query "cafe"`. -/
theorem C8_count_matches_data :
    (∀ gm p, (poisRoute gm p).2.success = true →
      ∃ a, (poisRoute gm p).2.data = some (.arr a) ∧
        (poisRoute gm p).2.count = some a.length) ∧
    (∀ q gm s, (searchRoute q gm s).2.1.success = true →
      (∃ a, (searchRoute q gm s).2.1.data = some (.arr a) ∧
        (searchRoute q gm s).2.1.count = some a.length) ∧
      (searchRoute q gm s).2.1.query = q) ∧
    (∀ gm st, (structuresRoute gm st).2.success = true →
      ∃ a, (structuresRoute gm st).2.data = some (.arr a) ∧
        (structuresRoute gm st).2.count = some a.length) ∧
    poisRoute (.ok (.obj [])) (.ok (.arr [.num 1, .num 2, .num 3])) =
      (200, { success := true, data := some (.arr [.num 1, .num 2, .num 3]),
              count := some 3 }) ∧
    searchRoute (some "cafe") (.ok (.obj [])) (.ok (.obj [])) =
      (200, { success := true, data := some (.arr []), count := some 0,
              query := some "cafe" }, true) := by
  refine ⟨?_, ?_, ?_, rfl, rfl⟩
  · intro gm p h
    cases gm with
    | error e => exact Bool.noConfusion h
    | ok m =>
      cases p with
      | error e => exact Bool.noConfusion h
      | ok pois => exact ⟨poisToArray pois, rfl, rfl⟩
  · intro q gm s h
    by_cases hq : optStrFalsy q = true
    · unfold searchRoute at h
      rw [if_pos hq] at h
      exact Bool.noConfusion h
    · unfold searchRoute at h ⊢
      rw [if_neg hq] at h ⊢
      cases gm with
      | error e => exact Bool.noConfusion h
      | ok m =>
        cases s with
        | error e => exact Bool.noConfusion h
        | ok results =>
          exact ⟨⟨searchResultsToArray results, rfl, rfl⟩, rfl⟩
  · intro gm st h
    cases gm with
    | error e => exact Bool.noConfusion h
    | ok m =>
      cases st with
      | error e => exact Bool.noConfusion h
      | ok structures => exact ⟨structuresToArray structures, rfl, rfl⟩

/-- Witness for C8 at a concrete success response of the POI-list route. -/
theorem C8_count_matches_data_witness :
    ∃ a, (poisRoute (.ok (.obj [])) (.ok (.arr [.num 4]))).2.data =
        some (.arr a) ∧
      (poisRoute (.ok (.obj [])) (.ok (.arr [.num 4]))).2.count =
        some a.length :=
  C8_count_matches_data.1 (.ok (.obj [])) (.ok (.arr [.num 4])) rfl

/-- C9: an id whose leading characters parse as an integer is not
rejected: the route never answers 400 for it and calls `getPOIDetails`
with exactly the truncated value `parseInt` produced; in particular
`parseInt` maps `"3.7"` to `3` and `"12abc"` to `12`. -/
theorem C9_prefix_parse_truncates (id : String) (n : Int)
    (hid : parseIntBase10 id = some n) (m : JValue)
    (f : Int → Except JsError JValue) :
    (poiDetailRoute id (.ok m) f).1 ≠ 400 ∧
    (poiDetailRoute id (.ok m) f).2.2.1 = true ∧
    (poiDetailRoute id (.ok m) f).2.2.2 = some n ∧
    parseIntBase10 "3.7" = some 3 ∧
    parseIntBase10 "12abc" = some 12 := by
  unfold poiDetailRoute
  rw [hid]
  cases hf : f n <;> simp [hf] <;> exact ⟨rfl, rfl⟩

/-- Witness for C9 at the id `"3.7"`: the route reaches the SDK with the
truncated argument 3 and does not answer 400. -/
theorem C9_prefix_parse_truncates_witness :
    (poiDetailRoute "3.7" (.ok (.obj [])) (fun _ => .ok .null)).1 ≠ 400 ∧
    (poiDetailRoute "3.7" (.ok (.obj [])) (fun _ => .ok .null)).2.2.1 = true ∧
    (poiDetailRoute "3.7" (.ok (.obj [])) (fun _ => .ok .null)).2.2.2 = some 3 ∧
    parseIntBase10 "3.7" = some 3 ∧
    parseIntBase10 "12abc" = some 12 :=
  C9_prefix_parse_truncates "3.7" 3 rfl (.obj []) (fun _ => .ok .null)

end AtriusNext
